import Mathlib

/-!
Verification of the output-shaping, splitting and data-access logic of
`mlmodels/dataloader.py` (class `DataLoader`), as a shallow embedding.

Python values flowing through `_interpret_output`, `_split_data` and
`get_data` are modelled by the inductive type `PyVal`; exceptions by
`PyErr`; fallible code by `Except PyErr`.  File-system writes performed by
the persistence step (`np.save`, `np.savez`, `pickle.dump`) are modelled as
successful no-ops, but the deterministic Python-level errors raised while
*preparing* those writes (attribute errors, type errors) are modelled
faithfully.  `pandas.DataFrame` values are outside the modelled value
universe; none of the claims quantifies over them.
-/

set_option autoImplicit false

namespace DataloaderProof

/-- The universe of Python values the dataloader manipulates: `None`,
ints, strings, lists, tuples, string-keyed dicts (insertion-ordered
association lists, as Python dicts are), numpy arrays (represented by
their shape only — no claim depends on array contents), and the three
opaque framework containers produced by the reformatting step. -/
inductive PyVal where
  | none
  | int (n : Int)
  | str (s : String)
  | list (xs : List PyVal)
  | tuple (xs : List PyVal)
  | dict (kvs : List (String × PyVal))
  | ndarray (dims : List Nat)
  | tfDataset (v : PyVal)
  | tchDataset (v : PyVal)
  | generator (v : PyVal) (batch : Int)

/-- The Python exceptions that the modelled code can raise.
`outputShapeError` carries the `(specified, actual)` payload of the
`OutputShapeError` class (dataloader.py lines 70-75); `unsupportedFormat`
models `Exception("Input format not supported for the specified output
format")`; `attributeError` models the `self.f` lookup failure at line 316;
`nameError` models the `UnboundLocalError` for `processed_data` in
`_split_data`. -/
inductive PyErr where
  | indexError
  | keyError
  | typeError
  | attributeError
  | nameError
  | unsupportedFormat
  | outputShapeError (specified : PyVal) (actual : PyVal)

abbrev PyDict := List (String × PyVal)

/-- Dict lookup by string key (first binding wins, as keys are unique in
a Python dict). -/
def dlookupStr (kvs : PyDict) (s : String) : Option PyVal :=
  match kvs with
  | [] => Option.none
  | (k1, v) :: rest => if s = k1 then Option.some v else dlookupStr rest s

/-- Python `output.get(key, None)`: first value stored under `key`, else `None`. -/
def dget (out : PyDict) (k : String) : PyVal :=
  match dlookupStr out k with
  | Option.some v => v
  | Option.none => PyVal.none

/-- Python `isinstance(v, dict)`. -/
def isDict : PyVal → Bool
  | PyVal.dict _ => true
  | _ => false

/-- Python `isinstance(v, np.ndarray)` (equivalently `hasattr(v, "shape")` in the
modelled universe) -/
def isNdarray : PyVal → Bool
  | PyVal.ndarray _ => true
  | _ => false

/-- Python `isinstance(v, list)`. -/
def isList : PyVal → Bool
  | PyVal.list _ => true
  | _ => false

/-- Python `isinstance(v, tuple)`. -/
def isTuple : PyVal → Bool
  | PyVal.tuple _ => true
  | _ => false

/-- The index at which a Python slice `v[0:stop]` of a length-`L` sequence
ends: `None` means `L`; a negative stop counts from the end (clamped at 0);
a non-negative stop is clamped at `L`. -/
def sliceStop (L : Nat) (stop : Option Int) : Nat :=
  match stop with
  | Option.none => L
  | Option.some i => if i < 0 then ((L : Int) + i).toNat else min i.toNat L

/-- Python `v[0:stopVal]`.  The stop operand must be an int or `None`
(anything else raises `TypeError`); strings, lists, tuples and arrays of
dimension ≥ 1 are sliceable; slicing a 0-d array raises `IndexError`;
everything else (ints, `None`, dicts, …) raises `TypeError`. -/
def pySliceV (v : PyVal) (stopVal : PyVal) : Except PyErr PyVal := do
  let stop : Option Int ←
    match stopVal with
    | PyVal.none => pure Option.none
    | PyVal.int i => pure (Option.some i)
    | _ => throw PyErr.typeError
  match v with
  | PyVal.list xs => pure (PyVal.list (xs.take (sliceStop xs.length stop)))
  | PyVal.tuple xs => pure (PyVal.tuple (xs.take (sliceStop xs.length stop)))
  | PyVal.str s => pure (PyVal.str (String.mk (s.data.take (sliceStop s.data.length stop))))
  | PyVal.ndarray [] => throw PyErr.indexError
  | PyVal.ndarray (d :: rest) => pure (PyVal.ndarray (sliceStop d stop :: rest))
  | _ => throw PyErr.typeError

/-- Python `len(v)`; `TypeError` on unsized values (including 0-d arrays). -/
def pyLen : PyVal → Except PyErr Nat
  | PyVal.list xs => pure xs.length
  | PyVal.tuple xs => pure xs.length
  | PyVal.str s => pure s.data.length
  | PyVal.dict kvs => pure kvs.length
  | PyVal.ndarray [] => throw PyErr.typeError
  | PyVal.ndarray (d :: _) => pure d
  | _ => throw PyErr.typeError

/-- Python `tuple(v)` / iteration: lists and tuples yield their elements,
strings their characters, dicts their keys, arrays their `dims.head` rows
(rows carry only their shape); non-iterables raise `TypeError`. -/
def pyTuple : PyVal → Except PyErr (List PyVal)
  | PyVal.list xs => pure xs
  | PyVal.tuple xs => pure xs
  | PyVal.str s => pure (s.data.map (fun c => PyVal.str (String.mk [c])))
  | PyVal.dict kvs => pure (kvs.map (fun kv => PyVal.str kv.1))
  | PyVal.ndarray [] => throw PyErr.typeError
  | PyVal.ndarray (d :: rest) => pure (List.replicate d (PyVal.ndarray rest))
  | _ => throw PyErr.typeError

/-- Python `v[k]` for the subscript forms the dataloader uses: dict lookup
by string key (KeyError when absent) and list/tuple indexing by int
(negative indices count from the end, out of range raises IndexError). -/
def pyIndex (v : PyVal) (k : PyVal) : Except PyErr PyVal :=
  match v, k with
  | PyVal.dict kvs, PyVal.str s =>
    match dlookupStr kvs s with
    | Option.some w => pure w
    | Option.none => throw PyErr.keyError
  | PyVal.dict _, _ => throw PyErr.keyError
  | PyVal.list xs, PyVal.int i =>
    let j : Int := if i < 0 then (xs.length : Int) + i else i
    if h : 0 ≤ j ∧ j.toNat < xs.length then pure (xs.get ⟨j.toNat, h.2⟩)
    else throw PyErr.indexError
  | PyVal.tuple xs, PyVal.int i =>
    let j : Int := if i < 0 then (xs.length : Int) + i else i
    if h : 0 ≤ j ∧ j.toNat < xs.length then pure (xs.get ⟨j.toNat, h.2⟩)
    else throw PyErr.indexError
  | _, _ => throw PyErr.typeError

/-- Error-propagating map over a list (used for the list/dict
comprehensions inside `_interpret_output`, whose first exception aborts
the whole comprehension). -/
def mapEx {α β : Type} (f : α → Except PyErr β) : List α → Except PyErr (List β)
  | [] => pure []
  | x :: xs => do
    let y ← f x
    let ys ← mapEx f xs
    pure (y :: ys)

/-- Error-propagating iteration (used for the `for` loops inside
`_interpret_output`; the first exception aborts the loop). -/
def forEx {α : Type} (f : α → Except PyErr Unit) : List α → Except PyErr Unit
  | [] => pure ()
  | x :: xs => do
    f x
    forEx f xs

/-- Python `==` between a declared shape tuple (a tuple of config values)
and a numpy shape tuple (a tuple of ints): elementwise equality, and a
non-int config entry is simply unequal to an int dimension. -/
def shapeMatches : List PyVal → List Nat → Bool
  | [], [] => true
  | PyVal.int n :: ss, d :: ds => n == (d : Int) && shapeMatches ss ds
  | _, _ => false

/-- The values of a dict, in insertion order (`tuple(v.values())` for a
dict; the dataloader only calls it on values already known to be dicts). -/
def dictValues : PyVal → List PyVal
  | PyVal.dict kvs => kvs.map (fun kv => kv.2)
  | _ => []

/-- Numpy shape as a Python tuple of ints. -/
def dimsTuple (dims : List Nat) : PyVal :=
  PyVal.tuple (dims.map (fun d => PyVal.int (d : Int)))

/-! ## `DataLoader._interpret_output` (dataloader.py lines 241-370)

The method is decomposed into one definition per step, each faithful to
the corresponding source lines, and chained by `interpret_output`.
`self.batch_size` (set only when `input_pars` requested a generator) is
passed as an `Option Int`; `Option.none` models the attribute being
absent, so that reading it raises `AttributeError`. -/

/-- Lines 242-243: `if isinstance(intermediate_output, list) and
len(output) == 1: intermediate_output = intermediate_output[0]`.
Indexing an empty list raises `IndexError`. -/
def singletonUnwrap (out : PyDict) (v : PyVal) : Except PyErr PyVal :=
  match v with
  | PyVal.list xs =>
    if out.length = 1 then
      match xs with
      | [] => throw PyErr.indexError
      | x :: _ => pure x
    else pure v
  | _ => pure v

/-- Lines 249-259: the five-way case classification.  `case = 0` by
default; a tuple is case 1 or 2 according to whether its *first* element
is a dict; a dict is case 3 or 4 according to whether its *first* value is
a dict.  The first element/value is read unguarded, so empty tuples and
empty dicts raise `IndexError`. -/
def classifyCase (v : PyVal) : Except PyErr Nat :=
  match v with
  | PyVal.tuple [] => throw PyErr.indexError
  | PyVal.tuple (x :: _) => if isDict x then pure 2 else pure 1
  | PyVal.dict [] => throw PyErr.indexError
  | PyVal.dict ((_, x) :: _) => if isDict x then pure 4 else pure 3
  | _ => pure 0

/-- One entry of the case-3 dict comprehension at lines 269-271: slice
the value, keep the key. -/
def sliceKV (stopVal : PyVal) (kv : String × PyVal) : Except PyErr (String × PyVal) := do
  let w ← pySliceV kv.2 stopVal
  pure (kv.1, w)

/-- Lines 261-273: `out_max_len` enforcement.  Case 0 slices the value
itself, case 1 slices each element (note: the list comprehension yields a
Python *list* even when the input was a tuple), case 3 slices each dict
value; cases 2 and 4 are untouched.  The whole step sits in a
`try/except: pass`, so the first exception (a non-sliceable value, or a
non-int `out_max_len`) abandons the entire step, leaving the value as it
was. -/
def truncStep (maxLenVal : PyVal) (c : Nat) (v : PyVal) : PyVal :=
  let attempt : Except PyErr PyVal :=
    if c = 0 then pySliceV v maxLenVal
    else if c = 1 then
      match v with
      | PyVal.tuple xs => do
        let ys ← mapEx (fun o => pySliceV o maxLenVal) xs
        pure (PyVal.list ys)
      | _ => pure v
    else if c = 3 then
      match v with
      | PyVal.dict kvs => do
        let ys ← mapEx (sliceKV maxLenVal) kvs
        pure (PyVal.dict ys)
      | _ => pure v
    else pure v
  match attempt with
  | Except.ok w => w
  | Except.error _ => v

/-- Lines 284-291, loop body shared by cases 1 and 3:
`if hasattr(o, "shape") and tuple(s) != o.shape[1:]:
   raise OutputShapeError(tuple(s), o.shape[1:])`.
`tuple(s)` is evaluated only when the sub-output has a shape (Python
short-circuit), and may itself raise `TypeError` on a non-iterable `s`. -/
def checkOne (s : PyVal) (o : PyVal) : Except PyErr Unit :=
  match o with
  | PyVal.ndarray dims => do
    let sp ← pyTuple s
    if shapeMatches sp (dims.drop 1) then pure ()
    else throw (PyErr.outputShapeError (PyVal.tuple sp) (dimsTuple (dims.drop 1)))
  | _ => pure ()

/-- Lines 276-292: the shape check.  Nothing happens when the declared
shape is `None` (`if shape is not None`).  Case 0 compares `tuple(shape)`
against the *full* `intermediate_output.shape` but reports
`intermediate_output.shape[1:]` as the actual value in the raised error;
cases 1 and 3 zip the declared shapes with the sub-outputs and compare
against `o.shape[1:]`; cases 2 and 4 are not validated. -/
def shapeStep (shapeVal : PyVal) (c : Nat) (v : PyVal) : Except PyErr Unit :=
  match shapeVal with
  | PyVal.none => pure ()
  | _ =>
    if c = 0 then
      match v with
      | PyVal.ndarray dims => do
        let sp ← pyTuple shapeVal
        if shapeMatches sp dims then pure ()
        else throw (PyErr.outputShapeError (PyVal.tuple sp) (dimsTuple (dims.drop 1)))
      | _ => pure ()
    else if c = 1 then do
      let ss ← pyTuple shapeVal
      let os ← pyTuple v
      forEx (fun p => checkOne p.1 p.2) (ss.zip os)
    else if c = 3 then do
      let ss ← pyTuple shapeVal
      forEx (fun p => checkOne p.1 p.2) (ss.zip (dictValues v))
    else pure ()

/-- Lines 296-310: persistence to a single string path.  The actual file
writes are modelled as successful; but for a dict whose values are all
arrays the source evaluates `tuple(intermediate_output.values)` — the
method object itself, missing the call parentheses — which raises
`TypeError` before any write happens. -/
def persistSingle (v : PyVal) : Except PyErr Unit :=
  match v with
  | PyVal.ndarray _ => pure ()
  | PyVal.tuple _ => pure ()
  | PyVal.dict kvs =>
    if kvs.all (fun kv => isNdarray kv.2) then throw PyErr.typeError
    else pure ()
  | _ => pure ()

/-- Lines 313-324, the body of the multi-path loop:
`for p, f in zip(path, intermediate_output): ...`.  Zipping requires the
value to be iterable; an array sub-output runs `np.save(p, self.f)`, and
`DataLoader` has no attribute `f`, so this raises `AttributeError`; the
remaining branches (`np.savez`, `pickle.dump`) are modelled as successful
writes. -/
def persistMulti (ps : List PyVal) (v : PyVal) : Except PyErr Unit := do
  let fs ← pyTuple v
  forEx (fun pf =>
    match pf.2 with
    | PyVal.ndarray _ => throw PyErr.attributeError
    | _ => pure ()) (ps.zip fs)

/-- Lines 295-326: the persistence step.  A string path persists the whole
value (errors propagate); a list path persists per sub-output inside
`try/except: pass`, so any error is swallowed; any other path value
(including `None` and tuples) does nothing. -/
def persistStep (pathVal : PyVal) (v : PyVal) : Except PyErr Unit :=
  match pathVal with
  | PyVal.str _ => persistSingle v
  | PyVal.list ps =>
    match persistMulti ps v with
    | Except.ok _ => pure ()
    | Except.error _ => pure ()
  | _ => pure ()

/-- The field `self.batch_size`: present only when a generator was configured. -/
def requireBatch (batchSize : Option Int) : Except PyErr Int :=
  match batchSize with
  | Option.some b => pure b
  | Option.none => throw PyErr.attributeError

/-- Python `zip(*rows)`: the rows transposed into tuples, stopping at the
shortest row (`zip()` of no rows yields nothing). -/
def zipStarLen (rows : List (List PyVal)) : Nat :=
  match rows with
  | [] => 0
  | r :: rs => (r :: rs).foldl (fun m row => min m row.length) r.length

/-- The tuples produced by `zip(*rows)`. -/
def zipStar (rows : List (List PyVal)) : List PyVal :=
  (List.range (zipStarLen rows)).map
    (fun i => PyVal.tuple (rows.map (fun row => row.getD i PyVal.none)))

/-- Lines 328-370: framework-specific output formatting.  A format other
than the three recognised strings (including `None`) passes the value
through unchanged.  For `tfDataset` and `tchDataset`, case 3 is first
flattened to the tuple of its values and cases 2/4 raise the unsupported
error; `tchDataset` wraps case 1 as a single positional argument and
star-spreads the value otherwise; `generic_generator` builds a lazy batch
generator over the value (case 0), the zipped elements (case 1) or the
zipped dict values (case 3), reading `self.batch_size` after building the
zipped payload, and raises for cases 2/4. -/
def reformat (fmtVal : PyVal) (batchSize : Option Int) (c : Nat) (v : PyVal) :
    Except PyErr PyVal :=
  match fmtVal with
  | PyVal.str fmt =>
    if fmt = "tfDataset" then
      let v2 := if c = 3 then PyVal.tuple (dictValues v) else v
      if c = 2 ∨ c = 4 then throw PyErr.unsupportedFormat
      else pure (PyVal.tfDataset v2)
    else if fmt = "tchDataset" then
      let v2 := if c = 3 then PyVal.tuple (dictValues v) else v
      if c = 2 ∨ c = 4 then throw PyErr.unsupportedFormat
      else if c = 1 then pure (PyVal.tchDataset (PyVal.tuple [v2]))
      else do
        let xs ← pyTuple v2
        pure (PyVal.tchDataset (PyVal.tuple xs))
    else if fmt = "generic_generator" then
      if c = 0 then do
        let b ← requireBatch batchSize
        pure (PyVal.generator v b)
      else if c = 1 then do
        let xs ← pyTuple v
        let rows ← mapEx pyTuple xs
        let b ← requireBatch batchSize
        pure (PyVal.generator (PyVal.tuple (zipStar rows)) b)
      else if c = 3 then do
        let rows ← mapEx pyTuple (dictValues v)
        let b ← requireBatch batchSize
        pure (PyVal.generator (PyVal.tuple (zipStar rows)) b)
      else throw PyErr.unsupportedFormat
    else pure v
  | _ => pure v

/-- Lines 249-370 of `_interpret_output`: everything after the singleton
unwrap — classification, truncation, shape check, persistence,
reformatting, in source order, all dispatching on the single case value
computed at entry. -/
def interpretAfterUnwrap (out : PyDict) (batchSize : Option Int) (v0 : PyVal) :
    Except PyErr PyVal := do
  let c ← classifyCase v0
  let v1 := truncStep (dget out "out_max_len") c v0
  shapeStep (dget out "shape") c v1
  persistStep (dget out "path") v1
  reformat (dget out "format") batchSize c v1

/-- The method `DataLoader._interpret_output(output, intermediate_output)`
(lines 241-370). -/
def interpret_output (out : PyDict) (batchSize : Option Int) (v : PyVal) :
    Except PyErr PyVal := do
  let v0 ← singletonUnwrap out v
  interpretAfterUnwrap out batchSize v0

/-! ## `DataLoader._split_data` (lines 399-447) and the `__init__` tail
(lines 128-134)

The split function itself (`sklearn.model_selection.train_test_split` by
default) is an external collaborator resolved by name; it is passed in as
`splitFn`, taking the star-spread positional arguments and the test-size
fraction and returning the flat result list.  `test_size` is an
`Option ℚ`: `Option.none` models Python `None` (the constructor default,
line 177), and a rational covers both int and float sizes. -/

/-- The instance fields `_split_data` reads. -/
structure SplitState where
  intermediate_output : PyVal
  names : Option (List String)
  split_outputs : Option (List PyVal)
  misc_outputs : Option (List PyVal)
  test_size : Option ℚ

/-- Python `x + "_train"` / `x + "_test"`: string concatenation, a
`TypeError` when `x` is not a string. -/
def asStr (v : PyVal) : Except PyErr String :=
  match v with
  | PyVal.str s => pure s
  | _ => throw PyErr.typeError

/-- The method `DataLoader._split_data` (lines 399-447).  Returns
`Option.some (train, test, misc)` when the source returns `True` after
setting `self.intermediate_output_split`, and `Option.none` when it
returns `False` without partitioning.

Faithful quirks: `processed_data` is only assigned when either
`split_outputs` is unset or the guard at lines 401-403 holds, so the
`test_size > 0` branch can hit an `UnboundLocalError` (modelled as
`nameError`); `self.test_size > 0` itself raises `TypeError` when
`test_size` is `None`; and the renaming branch at lines 424-428 iterates
`self.split_outputs` even when it is `None` (a `TypeError`). -/
def split_data (splitFn : List PyVal → ℚ → List PyVal) (st : SplitState) :
    Except PyErr (Option (PyVal × PyVal × PyVal)) := do
  let processed : Option PyVal ←
    match st.split_outputs with
    | Option.some sel =>
      if st.names.isSome || isDict st.intermediate_output
          || isTuple st.intermediate_output then do
        let xs ← mapEx (fun n => pyIndex st.intermediate_output n) sel
        pure (Option.some (PyVal.tuple xs))
      else pure Option.none
    | Option.none => pure (Option.some st.intermediate_output)
  match st.test_size with
  | Option.none => throw PyErr.typeError
  | Option.some q =>
    if q > 0 then do
      let pd ← match processed with
               | Option.none => throw PyErr.nameError
               | Option.some p => pure p
      let l ← pyLen pd
      let args ← pyTuple pd
      let parts := splitFn args q
      let train := parts.take l
      let test := parts.drop l
      let renamed ←
        if st.names.isSome && isDict st.intermediate_output then do
          let sel ← match st.split_outputs with
                    | Option.none => throw PyErr.typeError
                    | Option.some sel => pure sel
          let trNames ← mapEx (fun n => do pure ((← asStr n) ++ "_train")) sel
          let teNames ← mapEx (fun n => do pure ((← asStr n) ++ "_test")) sel
          pure (PyVal.dict (trNames.zip train), PyVal.dict (teNames.zip test))
        else pure (PyVal.list train, PyVal.list test)
      let misc : PyVal ←
        match st.misc_outputs with
        | Option.none => pure (PyVal.list [])
        | Option.some ms =>
          if st.names.isSome && isDict st.intermediate_output then do
            let kvs ← mapEx (fun m => do
              pure ((← asStr m), ← pyIndex st.intermediate_output m)) ms
            pure (PyVal.dict kvs)
          else do
            let xs ← mapEx (fun m => pyIndex st.intermediate_output m) ms
            pure (PyVal.tuple xs)
      pure (Option.some (renamed.1, renamed.2, misc))
    else pure Option.none

/-- Lines 128-134 of `__init__`: if `_split_data()` returned `True`,
shape the train and test partitions and append the misc items, producing
`final_output_split` as the flat tuple
`(shaped_train, shaped_test, *misc)`; otherwise run `_interpret_output`
once on the whole intermediate output, producing `final_output`.
The result is the pair `(final_output, final_output_split)`. -/
def constructOutputs (out : PyDict) (batchSize : Option Int)
    (splitFn : List PyVal → ℚ → List PyVal) (st : SplitState) :
    Except PyErr (Option PyVal × Option PyVal) := do
  match ← split_data splitFn st with
  | Option.some (tr, te, mi) => do
    let shapedTr ← interpret_output out batchSize tr
    let shapedTe ← interpret_output out batchSize te
    let ms ← pyTuple mi
    pure (Option.none, Option.some (PyVal.tuple (shapedTr :: shapedTe :: ms)))
  | Option.none => do
    let f ← interpret_output out batchSize st.intermediate_output
    pure (Option.some f, Option.none)

/-! ## `DataLoader.get_data` (lines 372-389) -/

/-- The four output fields of a constructed `DataLoader` (lines 108-111,
filled at lines 123-134 and 441-445). -/
structure LoaderState where
  intermediate_output : PyVal
  intermediate_output_split : Option (PyVal × PyVal × PyVal)
  final_output : Option PyVal
  final_output_split : Option PyVal

/-- Lines 373-382, the branch taken when `intermediate` is truthy or
`self.final_output is None`: a stored intermediate split is flattened as
`(*split[0], *split[1], *split[2])`; otherwise a dict intermediate output
is returned as the tuple of its values, and anything else is returned
as-is. -/
def intermediateBranch (st : LoaderState) : Except PyErr PyVal :=
  match st.intermediate_output_split with
  | Option.some (a, b, c) => do
    let ta ← pyTuple a
    let tb ← pyTuple b
    let tc ← pyTuple c
    pure (PyVal.tuple (ta ++ tb ++ tc))
  | Option.none =>
    match st.intermediate_output with
    | PyVal.dict kvs => pure (PyVal.tuple (kvs.map (fun kv => kv.2)))
    | v => pure v

/-- Lines 383-388: flattening of the stored `final_output_split` as
`(*fos[0], *fos[1], *fos[2])`. -/
def finalSplitBranch (fos : PyVal) : Except PyErr PyVal := do
  let p0 ← pyIndex fos (PyVal.int 0)
  let p1 ← pyIndex fos (PyVal.int 1)
  let p2 ← pyIndex fos (PyVal.int 2)
  let t0 ← pyTuple p0
  let t1 ← pyTuple p1
  let t2 ← pyTuple p2
  pure (PyVal.tuple (t0 ++ t1 ++ t2))

/-- The method `DataLoader.get_data(intermediate=False)` (lines 372-389). -/
def get_data (st : LoaderState) (intermediate : Bool) : Except PyErr PyVal :=
  match st.final_output with
  | Option.none => intermediateBranch st
  | Option.some fv =>
    if intermediate then intermediateBranch st
    else
      match st.final_output_split with
      | Option.some fos => finalSplitBranch fos
      | Option.none => pure fv

/-! ## Concrete states used by the claim theorems -/

/-- A two-output intermediate value with no naming, no selected split
outputs, no misc outputs, and the constructor-default `test_size = None`
(line 177 of dataloader.py). -/
def defaultSplitState : SplitState :=
  { intermediate_output := PyVal.tuple [PyVal.list [PyVal.int 1], PyVal.list [PyVal.int 2]],
    names := Option.none,
    split_outputs := Option.none,
    misc_outputs := Option.none,
    test_size := Option.none }

/-- The identity stand-in for the externally resolved split callable; the
claims settled here never reach the call. -/
def idSplitFn : List PyVal → ℚ → List PyVal := fun xs _ => xs

/-- A post-construction state in which a split occurred: the intermediate
partitions and the shaped `final_output_split` are both set and
`final_output` is `None`, exactly as lines 128-132 leave them. -/
def splitLoaderState : LoaderState :=
  { intermediate_output := PyVal.none,
    intermediate_output_split := Option.some
      (PyVal.tuple [PyVal.int 1], PyVal.tuple [PyVal.int 2], PyVal.list [PyVal.int 3]),
    final_output := Option.none,
    final_output_split := Option.some
      (PyVal.tuple [PyVal.tuple [PyVal.int 10], PyVal.tuple [PyVal.int 20],
        PyVal.tuple [PyVal.int 3]]) }

/-- Replace the value stored under key `k` (the key set stays fixed, so
`len(output)` — which the singleton unwrap consults — is unchanged). -/
def setKey (out : PyDict) (k : String) (v : PyVal) : PyDict :=
  out.map (fun kv => if kv.1 = k then (kv.1, v) else kv)

/-- The values on which Python `v[0:stop]` succeeds (with an int or
`None` stop): strings, lists, tuples, and arrays of dimension ≥ 1. -/
def sliceableNone : PyVal → Bool
  | PyVal.str _ => true
  | PyVal.list _ => true
  | PyVal.tuple _ => true
  | PyVal.ndarray (_ :: _) => true
  | _ => false

/-- What `_interpret_output` actually does to the structure when the
output config declares no `out_max_len`, no `shape`, no `path` and no
`format`: empty containers raise `IndexError` from the classification;
a case-1 tuple whose elements are all sliceable is returned as the
Python *list* of the same elements (the `[o[0:None] for o in ...]`
comprehension); everything else comes back unchanged. -/
def identityShapeResult (v : PyVal) : Except PyErr PyVal :=
  match v with
  | PyVal.tuple [] => Except.error PyErr.indexError
  | PyVal.dict [] => Except.error PyErr.indexError
  | PyVal.tuple (x :: xs) =>
    if isDict x then Except.ok (PyVal.tuple (x :: xs))
    else if (x :: xs).all sliceableNone then Except.ok (PyVal.list (x :: xs))
    else Except.ok (PyVal.tuple (x :: xs))
  | _ => Except.ok v

/-- What `_interpret_output` actually does when only `out_max_len = m` is
declared (no shape, path or format): Python `[0:m]` slices, applied
all-or-nothing — for case 1 (rebuilt as a list) and case 3 the *whole*
truncation is abandoned if any single sub-output fails to slice; case 0
slices the value itself; cases 2/4 and empty containers as elsewhere. -/
def truncSpecResult (m : Int) (v : PyVal) : Except PyErr PyVal :=
  match v with
  | PyVal.tuple [] => Except.error PyErr.indexError
  | PyVal.dict [] => Except.error PyErr.indexError
  | PyVal.tuple (x :: xs) =>
    if isDict x then Except.ok (PyVal.tuple (x :: xs))
    else
      match mapEx (fun o => pySliceV o (PyVal.int m)) (x :: xs) with
      | Except.ok ys => Except.ok (PyVal.list ys)
      | Except.error _ => Except.ok (PyVal.tuple (x :: xs))
  | PyVal.dict (kv :: kvs) =>
    if isDict kv.2 then Except.ok (PyVal.dict (kv :: kvs))
    else
      match mapEx (sliceKV (PyVal.int m)) (kv :: kvs) with
      | Except.ok ys => Except.ok (PyVal.dict ys)
      | Except.error _ => Except.ok (PyVal.dict (kv :: kvs))
  | w =>
    match pySliceV w (PyVal.int m) with
    | Except.ok y => Except.ok y
    | Except.error _ => Except.ok w

/-! ## C1 -/

/-- C1: the claim says that when `test_size` is `None` or ≤ 0 no split
occurs — `_split_data` returns `False` without partitioning and
`_interpret_output` runs once on the whole intermediate value.  The code
honours this only for numeric `test_size ≤ 0`; for the constructor-default
`test_size = None` the comparison `self.test_size > 0` (line 414) raises
`TypeError`, so construction crashes instead of taking the no-split path.
This theorem evaluates the model at the failing input (`test_size = None`)
and at the conforming inputs (`0` and `-1`). -/
theorem split_data_none_test_size_raises :
    split_data idSplitFn defaultSplitState = Except.error PyErr.typeError
    ∧ constructOutputs [] Option.none idSplitFn defaultSplitState
        = Except.error PyErr.typeError
    ∧ split_data idSplitFn { defaultSplitState with test_size := Option.some 0 }
        = Except.ok Option.none
    ∧ split_data idSplitFn { defaultSplitState with test_size := Option.some (-1) }
        = Except.ok Option.none
    ∧ constructOutputs [] Option.none idSplitFn
        { defaultSplitState with test_size := Option.some 0 }
        = Except.ok (Option.some
            (PyVal.list [PyVal.list [PyVal.int 1], PyVal.list [PyVal.int 2]]),
            Option.none) := by
  refine ⟨rfl, rfl, rfl, rfl, rfl⟩

/-! ## C2 -/

/-- C2: the claim says that for Case 0/1/3 a declared shape equal to the
actual trailing dimensions (`shape[1:]`) never raises.  For Case 0 the
code (lines 278-283) compares the declared shape against the *full*
`intermediate_output.shape` while reporting `shape[1:]` as the actual
value: a 2-d array of shape `(4, 3)` with declared shape `(3,)` — equal to
its trailing dimensions — raises `OutputShapeError((3,), (3,))`, an error
whose own payload says the specified and actual values coincide. -/
theorem case0_shape_check_compares_full_shape :
    interpret_output [("shape", PyVal.list [PyVal.int 3])] Option.none
      (PyVal.ndarray [4, 3])
    = Except.error (PyErr.outputShapeError
        (PyVal.tuple [PyVal.int 3]) (PyVal.tuple [PyVal.int 3])) := by
  rfl

/-! ## Monad-plumbing simp lemmas -/

@[simp] theorem except_pure_eq {α : Type} (a : α) :
    (pure a : Except PyErr α) = Except.ok a := rfl

@[simp] theorem except_throw_eq {α : Type} (e : PyErr) :
    (throw e : Except PyErr α) = Except.error e := rfl

@[simp] theorem except_bind_ok {α β : Type} (a : α) (f : α → Except PyErr β) :
    (Except.ok a : Except PyErr α) >>= f = f a := rfl

@[simp] theorem except_bind_error {α β : Type} (e : PyErr) (f : α → Except PyErr β) :
    (Except.error e : Except PyErr α) >>= f = Except.error e := rfl

@[simp] theorem except_dot_bind_ok {α β : Type} (a : α) (f : α → Except PyErr β) :
    (Except.ok a : Except PyErr α).bind f = f a := rfl

@[simp] theorem except_dot_bind_error {α β : Type} (e : PyErr) (f : α → Except PyErr β) :
    (Except.error e : Except PyErr α).bind f = Except.error e := rfl

/-! ## C10 -/

/-- C10: the case classification reads the first element of the container
unguarded, so `_interpret_output` raises `IndexError` on an empty tuple
and on an empty dict, whatever the output configuration — the error
strikes before any shaping step (truncation, validation, persistence,
reformatting) runs. -/
theorem empty_containers_raise (out : PyDict) (bs : Option Int) :
    interpret_output out bs (PyVal.tuple []) = Except.error PyErr.indexError
    ∧ interpret_output out bs (PyVal.dict []) = Except.error PyErr.indexError := by
  exact ⟨rfl, rfl⟩

/-- C10 witness: the empty tuple raises even under a configured format,
and the empty dict raises under the empty config. -/
theorem empty_containers_raise_witness :
    interpret_output [("format", PyVal.str "tfDataset")] Option.none (PyVal.tuple [])
      = Except.error PyErr.indexError
    ∧ interpret_output [] Option.none (PyVal.dict [])
      = Except.error PyErr.indexError :=
  ⟨(empty_containers_raise [("format", PyVal.str "tfDataset")] Option.none).1,
   (empty_containers_raise [] Option.none).2⟩

/-! ## C3 -/

/-- C3 counterexample: the claim says unwrapping happens if and only if
the value is a sequence of length 1 (and never for other lengths).  In
the code (line 242) the guard is `isinstance(intermediate_output, list)
and len(output) == 1` — the *length of the output-config dict*, with no
check on the length of the list: a two-element list with a single-key output
config is unwrapped to its first element, silently dropping the second. -/
theorem length_two_list_is_unwrapped :
    interpret_output [("format", PyVal.none)] Option.none
      (PyVal.list [PyVal.int 1, PyVal.int 2]) = Except.ok (PyVal.int 1)
    ∧ PyVal.int 1 ≠ PyVal.list [PyVal.int 1, PyVal.int 2] := by
  exact ⟨rfl, by simp⟩

/-- C3 amended: the unwrap at line 242 replaces the intermediate value by
its first element exactly when the value is a Python *list* (tuples and
other sequences are never unwrapped) and the output-config dict has
exactly one key — regardless of the length of the list (an empty list raises
`IndexError`); the element then flows into the classification-first
pipeline (`interpretAfterUnwrap`). -/
theorem singleton_unwrap_semantics :
    (∀ (out : PyDict) (bs : Option Int) (v : PyVal),
      interpret_output out bs v
        = (singletonUnwrap out v).bind (interpretAfterUnwrap out bs))
    ∧ (∀ (out : PyDict) (x : PyVal) (rest : List PyVal), out.length = 1 →
      singletonUnwrap out (PyVal.list (x :: rest)) = Except.ok x)
    ∧ (∀ (out : PyDict) (v : PyVal), isList v = false →
      singletonUnwrap out v = Except.ok v)
    ∧ (∀ (out : PyDict) (xs : List PyVal), out.length ≠ 1 →
      singletonUnwrap out (PyVal.list xs) = Except.ok (PyVal.list xs))
    ∧ (∀ (out : PyDict), out.length = 1 →
      singletonUnwrap out (PyVal.list []) = Except.error PyErr.indexError) := by
  refine ⟨fun out bs v => rfl, fun out x rest h => ?_, fun out v h => ?_,
    fun out xs h => ?_, fun out h => ?_⟩
  · simp [singletonUnwrap, h]
  · cases v <;> simp_all [singletonUnwrap, isList]
  · simp [singletonUnwrap, h]
  · simp [singletonUnwrap, h]

/-- C3 witness: the amended behaviour at a concrete input — a single-key
output config unwraps a two-element list to its head. -/
theorem singleton_unwrap_semantics_witness :
    singletonUnwrap [("format", PyVal.none)] (PyVal.list [PyVal.int 1, PyVal.int 2])
      = Except.ok (PyVal.int 1) :=
  singleton_unwrap_semantics.2.1 [("format", PyVal.none)] (PyVal.int 1) [PyVal.int 2] rfl

/-! ## C9 and C7 -/



/-- C9: whenever a split occurred (`final_output` is `None`,
`final_output_split` is set), `get_data` — with either flag — takes the
line-373 branch (`intermediate or self.final_output is None`), returning
the flattened *intermediate* partitions; the stored `final_output_split`
is never consulted, so the result is unchanged if it is erased. -/
theorem split_get_data_returns_intermediate (st : LoaderState)
    (a b c fos : PyVal) (flag : Bool)
    (hf : st.final_output = Option.none)
    (hs : st.intermediate_output_split = Option.some (a, b, c))
    (_hfs : st.final_output_split = Option.some fos) :
    get_data st flag
      = (do
          let ta ← pyTuple a
          let tb ← pyTuple b
          let tc ← pyTuple c
          pure (PyVal.tuple (ta ++ tb ++ tc)))
    ∧ get_data st flag = get_data { st with final_output_split := Option.none } flag := by
  constructor
  · simp [get_data, hf, intermediateBranch, hs]
  · simp [get_data, hf, intermediateBranch, hs]

/-- C9 witness: at the concrete split state, both flags return the
flattened intermediate partitions. -/
theorem split_get_data_returns_intermediate_witness :
    get_data splitLoaderState false
      = Except.ok (PyVal.tuple [PyVal.int 1, PyVal.int 2, PyVal.int 3]) := by
  have h := split_get_data_returns_intermediate splitLoaderState
    (PyVal.tuple [PyVal.int 1]) (PyVal.tuple [PyVal.int 2]) (PyVal.list [PyVal.int 3])
    (PyVal.tuple [PyVal.tuple [PyVal.int 10], PyVal.tuple [PyVal.int 20],
      PyVal.tuple [PyVal.int 3]])
    false rfl rfl rfl
  exact h.1.trans (by rfl)

/-- C7 counterexample: the claim says `get_data(intermediate=False)`
returns the shaped final output.  After a split, `final_output` is `None`,
so the line-373 condition sends even `intermediate=False` down the
intermediate branch: the call returns the flattened unshaped partitions
`(1, 2, 3)`, not the flattening of the stored shaped
`final_output_split` (which would be `(10, 20, 3)`). -/
theorem get_data_false_after_split_is_unshaped :
    get_data splitLoaderState false
      = Except.ok (PyVal.tuple [PyVal.int 1, PyVal.int 2, PyVal.int 3])
    ∧ finalSplitBranch (PyVal.tuple [PyVal.tuple [PyVal.int 10],
        PyVal.tuple [PyVal.int 20], PyVal.tuple [PyVal.int 3]])
      = Except.ok (PyVal.tuple [PyVal.int 10, PyVal.int 20, PyVal.int 3])
    ∧ (PyVal.tuple [PyVal.int 1, PyVal.int 2, PyVal.int 3]
        ≠ PyVal.tuple [PyVal.int 10, PyVal.int 20, PyVal.int 3]) := by
  refine ⟨rfl, rfl, by simp⟩

/-- C7 amended: `get_data` returns the shaped final output only when
`intermediate` is false *and no split occurred*; when `intermediate` is
true, or whenever `final_output` is `None` (in particular after a split),
it returns the unshaped intermediate output — a split flattened as the
train items, then the test items, then the misc items, and an unsplit
dict returned as the tuple of its values. -/
theorem get_data_semantics :
    (∀ (st : LoaderState) (v : PyVal), st.final_output = Option.some v →
      st.final_output_split = Option.none → get_data st false = Except.ok v)
    ∧ (∀ (st : LoaderState), st.final_output = Option.none →
      ∀ (flag : Bool), get_data st flag = intermediateBranch st)
    ∧ (∀ (st : LoaderState) (a b c : PyVal) (ta tb tc : List PyVal) (flag : Bool),
      st.intermediate_output_split = Option.some (a, b, c) →
      pyTuple a = Except.ok ta → pyTuple b = Except.ok tb → pyTuple c = Except.ok tc →
      (flag = true ∨ st.final_output = Option.none) →
      get_data st flag = Except.ok (PyVal.tuple (ta ++ tb ++ tc)))
    ∧ (∀ (st : LoaderState) (kvs : List (String × PyVal)) (flag : Bool),
      st.intermediate_output = PyVal.dict kvs →
      st.intermediate_output_split = Option.none →
      (flag = true ∨ st.final_output = Option.none) →
      get_data st flag = Except.ok (PyVal.tuple (kvs.map (fun kv => kv.2)))) := by
  refine ⟨fun st v hv hs => ?_, fun st hf flag => ?_,
    fun st a b c ta tb tc flag hs ha hb hc hor => ?_,
    fun st kvs flag hio hs hor => ?_⟩
  · simp [get_data, hv, hs]
  · simp [get_data, hf]
  · have hib : intermediateBranch st = Except.ok (PyVal.tuple (ta ++ tb ++ tc)) := by
      simp [intermediateBranch, hs, ha, hb, hc]
    rcases hor with h | h
    · subst h
      cases hfo : st.final_output <;> simp [get_data, hfo, hib]
    · simp [get_data, h, hib]
  · have hib : intermediateBranch st
        = Except.ok (PyVal.tuple (kvs.map (fun kv => kv.2))) := by
      simp [intermediateBranch, hs, hio]
    rcases hor with h | h
    · subst h
      cases hfo : st.final_output <;> simp [get_data, hfo, hib]
    · simp [get_data, h, hib]

/-- C7 witness: the amended claim at concrete states — a no-split state
returns the shaped final output for `intermediate=False`, and the split
state returns the flattened intermediate partitions for
`intermediate=True`. -/
theorem get_data_semantics_witness :
    get_data { intermediate_output := PyVal.none,
               intermediate_output_split := Option.none,
               final_output := Option.some (PyVal.tfDataset (PyVal.int 5)),
               final_output_split := Option.none } false
      = Except.ok (PyVal.tfDataset (PyVal.int 5))
    ∧ get_data splitLoaderState true
      = Except.ok (PyVal.tuple [PyVal.int 1, PyVal.int 2, PyVal.int 3]) := by
  constructor
  · exact get_data_semantics.1 _ _ rfl rfl
  · exact get_data_semantics.2.2.1 splitLoaderState
      (PyVal.tuple [PyVal.int 1]) (PyVal.tuple [PyVal.int 2]) (PyVal.list [PyVal.int 3])
      [PyVal.int 1] [PyVal.int 2] [PyVal.int 3] true rfl rfl rfl rfl (Or.inl rfl)

/-! ## Structural lemmas about the shaping steps -/

theorem classify_two_inv {v : PyVal} (h : classifyCase v = Except.ok 2) :
    ∃ x xs, v = PyVal.tuple (x :: xs) ∧ isDict x = true := by
  cases v with
  | tuple xs =>
    cases xs with
    | nil => simp [classifyCase] at h
    | cons x rest =>
      by_cases hd : isDict x
      · exact ⟨x, rest, rfl, hd⟩
      · simp [classifyCase, hd] at h
  | dict kvs =>
    cases kvs with
    | nil => simp [classifyCase] at h
    | cons kv rest =>
      obtain ⟨k, x⟩ := kv
      by_cases hd : isDict x <;> simp [classifyCase, hd] at h
  | none => simp [classifyCase] at h
  | int n => simp [classifyCase] at h
  | str s => simp [classifyCase] at h
  | list xs => simp [classifyCase] at h
  | ndarray dims => simp [classifyCase] at h
  | tfDataset w => simp [classifyCase] at h
  | tchDataset w => simp [classifyCase] at h
  | generator w b => simp [classifyCase] at h

theorem classify_four_inv {v : PyVal} (h : classifyCase v = Except.ok 4) :
    ∃ k x kvs, v = PyVal.dict ((k, x) :: kvs) ∧ isDict x = true := by
  cases v with
  | tuple xs =>
    cases xs with
    | nil => simp [classifyCase] at h
    | cons x rest =>
      by_cases hd : isDict x <;> simp [classifyCase, hd] at h
  | dict kvs =>
    cases kvs with
    | nil => simp [classifyCase] at h
    | cons kv rest =>
      obtain ⟨k, x⟩ := kv
      by_cases hd : isDict x
      · exact ⟨k, x, rest, rfl, hd⟩
      · simp [classifyCase, hd] at h
  | none => simp [classifyCase] at h
  | int n => simp [classifyCase] at h
  | str s => simp [classifyCase] at h
  | list xs => simp [classifyCase] at h
  | ndarray dims => simp [classifyCase] at h
  | tfDataset w => simp [classifyCase] at h
  | tchDataset w => simp [classifyCase] at h
  | generator w b => simp [classifyCase] at h

/-- Case 2 is not truncated. -/
theorem truncStep_two (m v : PyVal) : truncStep m 2 v = v := by
  simp [truncStep]

/-- Case 4 is not truncated. -/
theorem truncStep_four (m v : PyVal) : truncStep m 4 v = v := by
  simp [truncStep]

/-- Case 2 is not shape-validated. -/
theorem shapeStep_two (s v : PyVal) : shapeStep s 2 v = pure () := by
  cases s <;> simp [shapeStep]

/-- Case 4 is not shape-validated. -/
theorem shapeStep_four (s v : PyVal) : shapeStep s 4 v = pure () := by
  cases s <;> simp [shapeStep]

/-- A list path never lets a persistence error escape (the
`try/except: pass` at lines 313-326). -/
theorem persistStep_list (ps : List PyVal) (v : PyVal) :
    persistStep (PyVal.list ps) v = pure () := by
  simp only [persistStep]
  cases persistMulti ps v <;> rfl

/-- Persisting a tuple value never raises (its sub-writes are modelled as
successful, and the `tuple(...values)` bug only affects dicts). -/
theorem persistStep_tuple (p : PyVal) (xs : List PyVal) :
    persistStep p (PyVal.tuple xs) = pure () := by
  cases p with
  | list ps => exact persistStep_list ps _
  | str s => rfl
  | none => rfl
  | int n => rfl
  | tuple ys => rfl
  | dict kvs => rfl
  | ndarray dims => rfl
  | tfDataset w => rfl
  | tchDataset w => rfl
  | generator w b => rfl

/-- Persisting a dict whose first value is itself a dict never raises:
the all-arrays branch (the one with the `tuple(...values)` bug) is not
taken. -/
theorem persistStep_dict_of_dict (p : PyVal) (k : String) (x : PyVal)
    (kvs : List (String × PyVal)) (hd : isDict x = true) :
    persistStep p (PyVal.dict ((k, x) :: kvs)) = pure () := by
  have hnd : isNdarray x = false := by cases x <;> simp_all [isDict, isNdarray]
  cases p with
  | list ps => exact persistStep_list ps _
  | str s => simp [persistStep, persistSingle, hnd]
  | none => rfl
  | int n => rfl
  | tuple ys => rfl
  | dict kvs2 => rfl
  | ndarray dims => rfl
  | tfDataset w => rfl
  | tchDataset w => rfl
  | generator w b => rfl

/-! ## C4 -/

/-- C4: for a Case 2 (tuple of dicts) or Case 4 (dict of dicts)
intermediate value, requesting format `tfDataset` or `tchDataset` always
raises the unsupported-input-format error, whatever the other output
fields hold: truncation skips cases 2/4, the shape check skips them,
persistence cannot raise on them, and both reformat branches raise before
building any dataset. -/
theorem tensor_formats_reject_nested (out : PyDict) (bs : Option Int) (v : PyVal)
    (hfmt : dget out "format" = PyVal.str "tfDataset"
            ∨ dget out "format" = PyVal.str "tchDataset")
    (hcase : classifyCase v = Except.ok 2 ∨ classifyCase v = Except.ok 4) :
    interpret_output out bs v = Except.error PyErr.unsupportedFormat := by
  rcases hcase with h2 | h4
  · obtain ⟨x, xs, rfl, hd⟩ := classify_two_inv h2
    have hre : reformat (dget out "format") bs 2 (PyVal.tuple (x :: xs))
        = Except.error PyErr.unsupportedFormat := by
      rcases hfmt with hf | hf <;> rw [hf] <;> simp [reformat]
    simp [interpret_output, interpretAfterUnwrap, singletonUnwrap, h2,
      truncStep_two, shapeStep_two, persistStep_tuple, hre]
  · obtain ⟨k, x, kvs, rfl, hd⟩ := classify_four_inv h4
    have hre : reformat (dget out "format") bs 4 (PyVal.dict ((k, x) :: kvs))
        = Except.error PyErr.unsupportedFormat := by
      rcases hfmt with hf | hf <;> rw [hf] <;> simp [reformat]
    simp [interpret_output, interpretAfterUnwrap, singletonUnwrap, h4,
      truncStep_four, shapeStep_four, persistStep_dict_of_dict _ _ _ _ hd, hre]

/-- C4 witness: concrete Case 2 input under `tfDataset`, and concrete
Case 4 input under `tchDataset`, with unrelated output fields set. -/
theorem tensor_formats_reject_nested_witness :
    interpret_output [("format", PyVal.str "tfDataset"), ("out_max_len", PyVal.int 2)]
      Option.none (PyVal.tuple [PyVal.dict [("a", PyVal.int 1)]])
      = Except.error PyErr.unsupportedFormat
    ∧ interpret_output [("format", PyVal.str "tchDataset"), ("shape", PyVal.list [])]
      Option.none (PyVal.dict [("a", PyVal.dict [("b", PyVal.int 1)])])
      = Except.error PyErr.unsupportedFormat := by
  constructor
  · exact tensor_formats_reject_nested _ _ _ (Or.inl rfl) (Or.inl rfl)
  · exact tensor_formats_reject_nested _ _ _ (Or.inr rfl) (Or.inr rfl)

/-! ## C8 -/



theorem setKey_length (out : PyDict) (k : String) (v : PyVal) :
    (setKey out k v).length = out.length := by
  simp [setKey]

theorem lookup_setKey_other (out : PyDict) (k k2 : String) (v : PyVal)
    (h : k2 ≠ k) : dlookupStr (setKey out k v) k2 = dlookupStr out k2 := by
  induction out with
  | nil => rfl
  | cons kv rest ih =>
    obtain ⟨k1, v1⟩ := kv
    simp only [setKey, List.map_cons] at ih ⊢
    by_cases h1 : k1 = k
    · subst h1
      have h2 : k2 ≠ k1 := h
      rw [if_pos rfl]
      simp only [dlookupStr, if_neg h2]
      exact ih
    · rw [if_neg h1]
      by_cases h2 : k2 = k1
      · simp only [dlookupStr, if_pos h2]
      · simp only [dlookupStr, if_neg h2]
        exact ih

theorem lookup_setKey_self (out : PyDict) (k : String) (v w : PyVal)
    (h : dlookupStr out k = Option.some w) :
    dlookupStr (setKey out k v) k = Option.some v := by
  induction out with
  | nil => simp [dlookupStr] at h
  | cons kv rest ih =>
    obtain ⟨k1, v1⟩ := kv
    simp only [setKey, List.map_cons] at ih ⊢
    by_cases h1 : k = k1
    · rw [if_pos h1.symm]
      simp only [dlookupStr, if_pos h1]
    · rw [if_neg (fun hh => h1 hh.symm)]
      simp only [dlookupStr, if_neg h1] at h ⊢
      exact ih h

theorem dget_setKey_other (out : PyDict) (k k2 : String) (v : PyVal)
    (h : k2 ≠ k) : dget (setKey out k v) k2 = dget out k2 := by
  simp [dget, lookup_setKey_other out k k2 v h]

/-- C8: multi-path persistence is inert.  For any output config whose
`path` is a Python list, `_interpret_output` behaves exactly as if `path`
were `None`: every error raised inside the per-sub-output persistence
loop (lines 313-326) is swallowed by its `try/except: pass`, and
execution continues into the reformatting step with the value untouched.
The second conjunct shows the loop genuinely produces an error to
swallow: an array sub-output runs `np.save(p, self.f)` and `self.f` does
not exist (`AttributeError`). -/
theorem multipath_persistence_is_inert :
    (∀ (out : PyDict) (bs : Option Int) (v : PyVal) (ps : List PyVal),
      dlookupStr out "path" = Option.some (PyVal.list ps) →
      interpret_output out bs v
        = interpret_output (setKey out "path" PyVal.none) bs v)
    ∧ persistMulti [PyVal.str "a"] (PyVal.tuple [PyVal.ndarray [2]])
        = Except.error PyErr.attributeError := by
  constructor
  · intro out bs v ps hp
    have hml : dget (setKey out "path" PyVal.none) "out_max_len" = dget out "out_max_len" :=
      dget_setKey_other out "path" "out_max_len" PyVal.none (by simp)
    have hsh : dget (setKey out "path" PyVal.none) "shape" = dget out "shape" :=
      dget_setKey_other out "path" "shape" PyVal.none (by simp)
    have hfm : dget (setKey out "path" PyVal.none) "format" = dget out "format" :=
      dget_setKey_other out "path" "format" PyVal.none (by simp)
    have hp1 : dget out "path" = PyVal.list ps := by simp [dget, hp]
    have hp2 : dget (setKey out "path" PyVal.none) "path" = PyVal.none := by
      simp [dget, lookup_setKey_self out "path" PyVal.none _ hp]
    have huw : singletonUnwrap (setKey out "path" PyVal.none) v = singletonUnwrap out v := by
      cases v <;> simp [singletonUnwrap, setKey_length]
    have hafter : ∀ v0, interpretAfterUnwrap (setKey out "path" PyVal.none) bs v0
        = interpretAfterUnwrap out bs v0 := by
      intro v0
      unfold interpretAfterUnwrap
      rw [hml, hsh, hfm, hp1, hp2]
      cases hcl : classifyCase v0 with
      | error e => rfl
      | ok c =>
        simp only [except_bind_ok]
        rw [persistStep_list]
        rfl
    unfold interpret_output
    rw [huw]
    cases hu : singletonUnwrap out v with
    | error e => rfl
    | ok v0 => simp [hafter v0]
  · rfl

/-- C8 witness: a concrete config whose list `path` would hit the
`AttributeError`; the result equals the run with `path = None`. -/
theorem multipath_persistence_is_inert_witness :
    interpret_output [("path", PyVal.list [PyVal.str "a"]), ("format", PyVal.none)]
      Option.none (PyVal.tuple [PyVal.ndarray [2], PyVal.int 5])
      = interpret_output
          (setKey [("path", PyVal.list [PyVal.str "a"]), ("format", PyVal.none)]
            "path" PyVal.none)
          Option.none (PyVal.tuple [PyVal.ndarray [2], PyVal.int 5]) :=
  multipath_persistence_is_inert.1 _ Option.none _ [PyVal.str "a"] rfl

/-! ## Slicing lemmas -/



theorem pySliceV_none_id (v : PyVal) (h : sliceableNone v = true) :
    pySliceV v PyVal.none = Except.ok v := by
  cases v with
  | str s => obtain ⟨cs⟩ := s; simp [pySliceV, sliceStop]
  | list xs => simp [pySliceV, sliceStop]
  | tuple xs => simp [pySliceV, sliceStop]
  | ndarray dims =>
    cases dims with
    | nil => simp [sliceableNone] at h
    | cons d rest => simp [pySliceV, sliceStop]
  | none => simp [sliceableNone] at h
  | int n => simp [sliceableNone] at h
  | dict kvs => simp [sliceableNone] at h
  | tfDataset w => simp [sliceableNone] at h
  | tchDataset w => simp [sliceableNone] at h
  | generator w b => simp [sliceableNone] at h

theorem pySliceV_none_err (v : PyVal) (h : sliceableNone v = false) :
    ∃ e, pySliceV v PyVal.none = Except.error e := by
  cases v with
  | ndarray dims =>
    cases dims with
    | nil => exact ⟨PyErr.indexError, rfl⟩
    | cons d rest => simp [sliceableNone] at h
  | str s => simp [sliceableNone] at h
  | list xs => simp [sliceableNone] at h
  | tuple xs => simp [sliceableNone] at h
  | none => exact ⟨PyErr.typeError, rfl⟩
  | int n => exact ⟨PyErr.typeError, rfl⟩
  | dict kvs => exact ⟨PyErr.typeError, rfl⟩
  | tfDataset w => exact ⟨PyErr.typeError, rfl⟩
  | tchDataset w => exact ⟨PyErr.typeError, rfl⟩
  | generator w b => exact ⟨PyErr.typeError, rfl⟩

theorem mapEx_slice_none_id (xs : List PyVal) (h : xs.all sliceableNone = true) :
    mapEx (fun o => pySliceV o PyVal.none) xs = Except.ok xs := by
  induction xs with
  | nil => rfl
  | cons x rest ih =>
    simp only [List.all_cons, Bool.and_eq_true] at h
    simp [mapEx, pySliceV_none_id x h.1, ih h.2]

theorem mapEx_slice_none_err (xs : List PyVal) (h : xs.all sliceableNone = false) :
    ∃ e, mapEx (fun o => pySliceV o PyVal.none) xs = Except.error e := by
  induction xs with
  | nil => simp [List.all_nil] at h
  | cons x rest ih =>
    by_cases hx : sliceableNone x = true
    · have hr : rest.all sliceableNone = false := by
        simp only [List.all_cons, hx, Bool.true_and] at h
        exact h
      obtain ⟨e, he⟩ := ih hr
      exact ⟨e, by simp [mapEx, pySliceV_none_id x hx, he]⟩
    · obtain ⟨e, he⟩ := pySliceV_none_err x (by simpa using hx)
      exact ⟨e, by simp [mapEx, he]⟩

theorem mapExKV_slice_none_id (kvs : List (String × PyVal))
    (h : kvs.all (fun kv => sliceableNone kv.2) = true) :
    mapEx (sliceKV PyVal.none) kvs = Except.ok kvs := by
  induction kvs with
  | nil => rfl
  | cons kv rest ih =>
    obtain ⟨k1, v1⟩ := kv
    simp only [List.all_cons, Bool.and_eq_true] at h
    simp [mapEx, sliceKV, pySliceV_none_id v1 h.1, ih h.2]

theorem mapExKV_slice_none_err (kvs : List (String × PyVal))
    (h : kvs.all (fun kv => sliceableNone kv.2) = false) :
    ∃ e, mapEx (sliceKV PyVal.none) kvs = Except.error e := by
  induction kvs with
  | nil => simp [List.all_nil] at h
  | cons kv rest ih =>
    obtain ⟨k1, v1⟩ := kv
    by_cases hx : sliceableNone v1 = true
    · have hr : rest.all (fun kv => sliceableNone kv.2) = false := by
        simp only [List.all_cons, hx, Bool.true_and] at h
        exact h
      obtain ⟨e, he⟩ := ih hr
      exact ⟨e, by simp [mapEx, sliceKV, pySliceV_none_id v1 hx, he]⟩
    · obtain ⟨e, he⟩ := pySliceV_none_err v1 (by simpa using hx)
      exact ⟨e, by simp [mapEx, sliceKV, he]⟩

/-- A `[0:None]` slice of a case-0 value changes nothing: either the
value is sliceable and the slice is the identity, or the `TypeError` /
`IndexError` is swallowed by the `try/except: pass`. -/
theorem truncStep_none_zero (v : PyVal) : truncStep PyVal.none 0 v = v := by
  cases h : sliceableNone v with
  | true => simp [truncStep, pySliceV_none_id v h]
  | false =>
    obtain ⟨e, he⟩ := pySliceV_none_err v h
    simp [truncStep, he]

/-! ## C6 -/



/-- C6 counterexample: the claim says that with no `format` (and no
`out_max_len`, `shape`, `path`) `_interpret_output` returns the
IntermediateValue unchanged.  But the truncation step still runs with
`max_len = None`, and for Case 1 the comprehension
`[o[0:None] for o in intermediate_output]` rebuilds the *tuple* as a
*list*: a tuple of two lists comes back as a list of two lists. -/
theorem no_format_case1_tuple_becomes_list :
    interpret_output [] Option.none
      (PyVal.tuple [PyVal.list [PyVal.int 1], PyVal.list [PyVal.int 2]])
      = Except.ok (PyVal.list [PyVal.list [PyVal.int 1], PyVal.list [PyVal.int 2]])
    ∧ PyVal.list [PyVal.list [PyVal.int 1], PyVal.list [PyVal.int 2]]
      ≠ PyVal.tuple [PyVal.list [PyVal.int 1], PyVal.list [PyVal.int 2]] := by
  exact ⟨rfl, by simp⟩

/-- C6 amended: with no `out_max_len`, `shape`, `path` or `format`
declared (and an output config whose key count is not 1, which would
trigger the singleton unwrap), `_interpret_output` is the identity on
structure *except* that a non-empty case-1 tuple with all elements
sliceable is returned as the list of the same elements, and empty
tuples/dicts raise `IndexError` (claim C10). -/
theorem no_format_shaping_is_identity (out : PyDict) (bs : Option Int)
    (hml : dget out "out_max_len" = PyVal.none)
    (hsh : dget out "shape" = PyVal.none)
    (hpa : dget out "path" = PyVal.none)
    (hfm : dget out "format" = PyVal.none)
    (hlen : out.length ≠ 1) :
    ∀ v, interpret_output out bs v = identityShapeResult v := by
  intro v
  have huw : singletonUnwrap out v = Except.ok v := by
    cases v <;> simp [singletonUnwrap, hlen]
  unfold interpret_output
  rw [huw]
  simp only [except_bind_ok]
  unfold interpretAfterUnwrap
  rw [hml, hsh, hpa, hfm]
  cases v with
  | tuple xs =>
    cases xs with
    | nil => rfl
    | cons x rest =>
      by_cases hd : isDict x
      · simp [classifyCase, hd, truncStep_two, identityShapeResult,
          shapeStep, persistStep_tuple, reformat]
      · by_cases hall : (x :: rest).all sliceableNone = true
        · have htr : truncStep PyVal.none 1 (PyVal.tuple (x :: rest))
              = PyVal.list (x :: rest) := by
            simp [truncStep, mapEx_slice_none_id _ hall]
          simp [classifyCase, hd, htr, identityShapeResult, hall,
            shapeStep, persistStep, reformat]
        · obtain ⟨e, he⟩ := mapEx_slice_none_err (x :: rest) (by simpa using hall)
          have htr : truncStep PyVal.none 1 (PyVal.tuple (x :: rest))
              = PyVal.tuple (x :: rest) := by
            simp [truncStep, he]
          simp [classifyCase, hd, htr, identityShapeResult, hall,
            shapeStep, persistStep, reformat]
  | dict kvs =>
    cases kvs with
    | nil => rfl
    | cons kv rest =>
      obtain ⟨k1, x⟩ := kv
      by_cases hd : isDict x
      · simp [classifyCase, hd, truncStep_four, identityShapeResult,
          shapeStep, persistStep_dict_of_dict _ _ _ _ hd, reformat]
      · by_cases hall : ((k1, x) :: rest).all (fun p => sliceableNone p.2) = true
        · have htr : truncStep PyVal.none 3 (PyVal.dict ((k1, x) :: rest))
              = PyVal.dict ((k1, x) :: rest) := by
            simp [truncStep, mapExKV_slice_none_id _ hall]
          simp [classifyCase, hd, htr, identityShapeResult,
            shapeStep, persistStep, reformat]
        · obtain ⟨e, he⟩ := mapExKV_slice_none_err ((k1, x) :: rest) (by simpa using hall)
          have htr : truncStep PyVal.none 3 (PyVal.dict ((k1, x) :: rest))
              = PyVal.dict ((k1, x) :: rest) := by
            simp [truncStep, he]
          simp [classifyCase, hd, htr, identityShapeResult,
            shapeStep, persistStep, reformat]
  | none => simp [classifyCase, truncStep_none_zero, identityShapeResult,
      shapeStep, persistStep, reformat]
  | int n => simp [classifyCase, truncStep_none_zero, identityShapeResult,
      shapeStep, persistStep, reformat]
  | str s => simp [classifyCase, truncStep_none_zero, identityShapeResult,
      shapeStep, persistStep, reformat]
  | list xs => simp [classifyCase, truncStep_none_zero, identityShapeResult,
      shapeStep, persistStep, reformat]
  | ndarray dims => simp [classifyCase, truncStep_none_zero, identityShapeResult,
      shapeStep, persistStep, reformat]
  | tfDataset w => simp [classifyCase, truncStep_none_zero, identityShapeResult,
      shapeStep, persistStep, reformat]
  | tchDataset w => simp [classifyCase, truncStep_none_zero, identityShapeResult,
      shapeStep, persistStep, reformat]
  | generator w b => simp [classifyCase, truncStep_none_zero, identityShapeResult,
      shapeStep, persistStep, reformat]

/-- C6 witness: the empty output config (no keys at all) leaves a case-0
string, a case-2 tuple-of-dicts and a case-3 dict untouched. -/
theorem no_format_shaping_is_identity_witness :
    interpret_output [] Option.none (PyVal.str "ab") = Except.ok (PyVal.str "ab")
    ∧ interpret_output [] Option.none (PyVal.tuple [PyVal.dict [("a", PyVal.int 1)]])
      = Except.ok (PyVal.tuple [PyVal.dict [("a", PyVal.int 1)]])
    ∧ interpret_output [] Option.none (PyVal.dict [("a", PyVal.int 1)])
      = Except.ok (PyVal.dict [("a", PyVal.int 1)]) := by
  refine ⟨?_, ?_, ?_⟩
  · exact (no_format_shaping_is_identity [] Option.none rfl rfl rfl rfl
      (by simp) (PyVal.str "ab")).trans rfl
  · exact (no_format_shaping_is_identity [] Option.none rfl rfl rfl rfl
      (by simp) (PyVal.tuple [PyVal.dict [("a", PyVal.int 1)]])).trans rfl
  · exact (no_format_shaping_is_identity [] Option.none rfl rfl rfl rfl
      (by simp) (PyVal.dict [("a", PyVal.int 1)])).trans rfl

/-! ## C5 -/



/-- C5 counterexample: the claim says every Case 0/1/3 sub-output with
length ≥ `out_max_len` ends with length exactly `out_max_len`, and that a
truncation failure on a non-sliceable value is ignored (per value).  In
the code the `try/except` wraps the *whole* comprehension: a case-1 tuple
`([1,2,3], 5)` with `out_max_len = 2` hits the non-sliceable `5`, the
exception abandons the entire step, and the first sub-output keeps length
3 instead of being cut to 2. -/
theorem truncation_aborts_wholesale :
    interpret_output [("out_max_len", PyVal.int 2)] Option.none
      (PyVal.tuple [PyVal.list [PyVal.int 1, PyVal.int 2, PyVal.int 3], PyVal.int 5])
      = Except.ok (PyVal.tuple
          [PyVal.list [PyVal.int 1, PyVal.int 2, PyVal.int 3], PyVal.int 5])
    ∧ interpret_output [("out_max_len", PyVal.int 2)] Option.none
        (PyVal.tuple [PyVal.list [PyVal.int 1, PyVal.int 2, PyVal.int 3], PyVal.int 5])
      ≠ Except.ok (PyVal.tuple
          [PyVal.list [PyVal.int 1, PyVal.int 2], PyVal.int 5]) := by
  refine ⟨rfl, ?_⟩
  intro h
  rw [show interpret_output [("out_max_len", PyVal.int 2)] Option.none
      (PyVal.tuple [PyVal.list [PyVal.int 1, PyVal.int 2, PyVal.int 3], PyVal.int 5])
      = Except.ok (PyVal.tuple
          [PyVal.list [PyVal.int 1, PyVal.int 2, PyVal.int 3], PyVal.int 5]) from rfl] at h
  simp at h

/-- C5 amended: with only `out_max_len = m` declared (shape, path, format
all absent, and not exactly one config key), `_interpret_output` performs
the Python `[0:m]` truncation all-or-nothing per case (`truncSpecResult`):
if every sub-output of a case 0/1/3 value slices, each is replaced by its
`[0:m]` slice (a case-1 tuple coming back as a list); if any sub-output is
non-sliceable the whole step is silently skipped; cases 2/4 are never
truncated.  For a non-negative `m`, a successful slice takes a sub-output
of length `L` to length `min L m` — exactly `m` when `L ≥ m`, unchanged
when `L < m`. -/
theorem out_max_len_truncation_semantics :
    (∀ (out : PyDict) (bs : Option Int) (m : Int) (v : PyVal),
      dget out "out_max_len" = PyVal.int m →
      dget out "shape" = PyVal.none →
      dget out "path" = PyVal.none →
      dget out "format" = PyVal.none →
      out.length ≠ 1 →
      interpret_output out bs v = truncSpecResult m v)
    ∧ (∀ (m : Int) (y y' : PyVal) (L : Nat), 0 ≤ m →
      pyLen y = Except.ok L → pySliceV y (PyVal.int m) = Except.ok y' →
      pyLen y' = Except.ok (min L m.toNat)) := by
  constructor
  · intro out bs m v hml hsh hpa hfm hlen
    have huw : singletonUnwrap out v = Except.ok v := by
      cases v <;> simp [singletonUnwrap, hlen]
    unfold interpret_output
    rw [huw]
    simp only [except_bind_ok]
    unfold interpretAfterUnwrap
    rw [hml, hsh, hpa, hfm]
    cases v with
    | tuple xs =>
      cases xs with
      | nil => rfl
      | cons x rest =>
        by_cases hd : isDict x
        · simp [classifyCase, hd, truncStep_two, truncSpecResult,
            shapeStep, persistStep_tuple, reformat]
        · cases hm : mapEx (fun o => pySliceV o (PyVal.int m)) (x :: rest) with
          | ok ys =>
            have htr : truncStep (PyVal.int m) 1 (PyVal.tuple (x :: rest))
                = PyVal.list ys := by simp [truncStep, hm]
            simp [classifyCase, hd, htr, truncSpecResult, hm,
              shapeStep, persistStep, reformat]
          | error e =>
            have htr : truncStep (PyVal.int m) 1 (PyVal.tuple (x :: rest))
                = PyVal.tuple (x :: rest) := by simp [truncStep, hm]
            simp [classifyCase, hd, htr, truncSpecResult, hm,
              shapeStep, persistStep, reformat]
    | dict kvs =>
      cases kvs with
      | nil => rfl
      | cons kv rest =>
        obtain ⟨k1, x⟩ := kv
        by_cases hd : isDict x
        · simp [classifyCase, hd, truncStep_four, truncSpecResult,
            shapeStep, persistStep_dict_of_dict _ _ _ _ hd, reformat]
        · cases hm : mapEx (sliceKV (PyVal.int m)) ((k1, x) :: rest) with
          | ok ys =>
            have htr : truncStep (PyVal.int m) 3 (PyVal.dict ((k1, x) :: rest))
                = PyVal.dict ys := by simp [truncStep, hm]
            simp [classifyCase, hd, htr, truncSpecResult, hm,
              shapeStep, persistStep, reformat]
          | error e =>
            have htr : truncStep (PyVal.int m) 3 (PyVal.dict ((k1, x) :: rest))
                = PyVal.dict ((k1, x) :: rest) := by simp [truncStep, hm]
            simp [classifyCase, hd, htr, truncSpecResult, hm,
              shapeStep, persistStep, reformat]
    | none =>
      cases hs : pySliceV PyVal.none (PyVal.int m) with
      | ok y => simp [classifyCase, truncStep, hs, truncSpecResult,
          shapeStep, persistStep, reformat]
      | error e => simp [classifyCase, truncStep, hs, truncSpecResult,
          shapeStep, persistStep, reformat]
    | int n =>
      cases hs : pySliceV (PyVal.int n) (PyVal.int m) with
      | ok y => simp [classifyCase, truncStep, hs, truncSpecResult,
          shapeStep, persistStep, reformat]
      | error e => simp [classifyCase, truncStep, hs, truncSpecResult,
          shapeStep, persistStep, reformat]
    | str s =>
      cases hs : pySliceV (PyVal.str s) (PyVal.int m) with
      | ok y => simp [classifyCase, truncStep, hs, truncSpecResult,
          shapeStep, persistStep, reformat]
      | error e => simp [classifyCase, truncStep, hs, truncSpecResult,
          shapeStep, persistStep, reformat]
    | list xs =>
      cases hs : pySliceV (PyVal.list xs) (PyVal.int m) with
      | ok y => simp [classifyCase, truncStep, hs, truncSpecResult,
          shapeStep, persistStep, reformat]
      | error e => simp [classifyCase, truncStep, hs, truncSpecResult,
          shapeStep, persistStep, reformat]
    | ndarray dims =>
      cases hs : pySliceV (PyVal.ndarray dims) (PyVal.int m) with
      | ok y => simp [classifyCase, truncStep, hs, truncSpecResult,
          shapeStep, persistStep, reformat]
      | error e => simp [classifyCase, truncStep, hs, truncSpecResult,
          shapeStep, persistStep, reformat]
    | tfDataset w =>
      cases hs : pySliceV (PyVal.tfDataset w) (PyVal.int m) with
      | ok y => simp [classifyCase, truncStep, hs, truncSpecResult,
          shapeStep, persistStep, reformat]
      | error e => simp [classifyCase, truncStep, hs, truncSpecResult,
          shapeStep, persistStep, reformat]
    | tchDataset w =>
      cases hs : pySliceV (PyVal.tchDataset w) (PyVal.int m) with
      | ok y => simp [classifyCase, truncStep, hs, truncSpecResult,
          shapeStep, persistStep, reformat]
      | error e => simp [classifyCase, truncStep, hs, truncSpecResult,
          shapeStep, persistStep, reformat]
    | generator w b =>
      cases hs : pySliceV (PyVal.generator w b) (PyVal.int m) with
      | ok y => simp [classifyCase, truncStep, hs, truncSpecResult,
          shapeStep, persistStep, reformat]
      | error e => simp [classifyCase, truncStep, hs, truncSpecResult,
          shapeStep, persistStep, reformat]
  · intro m y y' L hm hL hs
    have hnm : ¬ (m < 0) := not_lt.mpr hm
    cases y with
    | list xs =>
      simp only [pyLen, except_pure_eq, Except.ok.injEq] at hL
      simp only [pySliceV, sliceStop, hnm, if_false, except_pure_eq,
        except_bind_ok, Except.ok.injEq] at hs
      subst hL
      rw [← hs]
      simp [pyLen, List.length_take]
      omega
    | tuple xs =>
      simp only [pyLen, except_pure_eq, Except.ok.injEq] at hL
      simp only [pySliceV, sliceStop, hnm, if_false, except_pure_eq,
        except_bind_ok, Except.ok.injEq] at hs
      subst hL
      rw [← hs]
      simp [pyLen, List.length_take]
      omega
    | str s =>
      simp only [pyLen, except_pure_eq, Except.ok.injEq] at hL
      simp only [pySliceV, sliceStop, hnm, if_false, except_pure_eq,
        except_bind_ok, Except.ok.injEq] at hs
      subst hL
      rw [← hs]
      simp [pyLen, List.length_take]
      omega
    | ndarray dims =>
      cases dims with
      | nil => simp [pyLen] at hL
      | cons d rest =>
        simp only [pyLen, except_pure_eq, Except.ok.injEq] at hL
        simp only [pySliceV, sliceStop, hnm, if_false, except_pure_eq,
          except_bind_ok, Except.ok.injEq] at hs
        subst hL
        rw [← hs]
        simp [pyLen]
        omega
    | none => simp [pyLen] at hL
    | int n => simp [pyLen] at hL
    | dict kvs => simp [pySliceV] at hs
    | tfDataset w => simp [pyLen] at hL
    | tchDataset w => simp [pyLen] at hL
    | generator w b => simp [pyLen] at hL

/-- C5 witness: with `out_max_len = 2` (and a second irrelevant key so
the config has two keys), a case-0 list of length 3 is cut to length 2,
and the slice-length law instantiates to `min 3 2 = 2`. -/
theorem out_max_len_truncation_semantics_witness :
    interpret_output [("out_max_len", PyVal.int 2), ("format", PyVal.none)]
      Option.none (PyVal.list [PyVal.int 1, PyVal.int 2, PyVal.int 3])
      = Except.ok (PyVal.list [PyVal.int 1, PyVal.int 2])
    ∧ pyLen (PyVal.list [PyVal.int 1, PyVal.int 2]) = Except.ok (min 3 (Int.toNat 2)) := by
  constructor
  · exact (out_max_len_truncation_semantics.1
      [("out_max_len", PyVal.int 2), ("format", PyVal.none)] Option.none 2
      (PyVal.list [PyVal.int 1, PyVal.int 2, PyVal.int 3])
      rfl rfl rfl rfl (by simp)).trans rfl
  · exact out_max_len_truncation_semantics.2 2
      (PyVal.list [PyVal.int 1, PyVal.int 2, PyVal.int 3])
      (PyVal.list [PyVal.int 1, PyVal.int 2]) 3 (by simp) rfl rfl

end DataloaderProof
